import Mathlib

/-!
Shallow embedding of the staw-hat-faucet-backend claim server
(`src/unnamed/part_000`): the filesystem lock store, the hCaptcha verifier,
and the `POST /claim` orchestrator, together with theorems settling the
frozen claims about them.

Conventions of the embedding:
* JavaScript numbers holding millisecond timestamps are modelled as `Nat`;
  the on-chain `uint256` reads as `Nat`; the computed `waitSeconds`
  (BigInt arithmetic that can go negative) as `Int`.
* Every `Date.now()` call inside one request is modelled as the same
  instant `now` (the handler runs in a single conceptual instant; the
  claims only compare quantities taken relative to the same clock).
* The filesystem lock directory is modelled as an association list from
  file name to file content; the constant `LOCK_DIR` prefix is dropped
  since every path shares it.
* `await`-able external calls (fetch to hCaptcha, the four contract
  calls) are modelled as oracle values carried by an environment record:
  each holds the outcome the external world would produce for this
  request, either a value or a thrown JavaScript error.
-/

namespace StrawHat

/-! ## SHA-256 (crypto.createHash('sha256'), used by hashKey) -/

/-- Truncate to an unsigned 32-bit word. -/
def u32 (x : Nat) : Nat := x % 4294967296

/-- Rotate a 32-bit word right by n bits. -/
def rotr (n x : Nat) : Nat := u32 ((x >>> n) ||| (x <<< (32 - n)))

def bigSig0 (x : Nat) : Nat := rotr 2 x ^^^ rotr 13 x ^^^ rotr 22 x

def bigSig1 (x : Nat) : Nat := rotr 6 x ^^^ rotr 11 x ^^^ rotr 25 x

def smallSig0 (x : Nat) : Nat := rotr 7 x ^^^ rotr 18 x ^^^ (x >>> 3)

def smallSig1 (x : Nat) : Nat := rotr 17 x ^^^ rotr 19 x ^^^ (x >>> 10)

/-- The 64 SHA-256 round constants of FIPS 180-4, written in decimal. -/
def sha256K : List Nat :=
  [1116352408, 1899447441, 3049323471, 3921009573, 961987163,
   1508970993, 2453635748, 2870763221, 3624381080, 310598401,
   607225278, 1426881987, 1925078388, 2162078206, 2614888103,
   3248222580, 3835390401, 4022224774, 264347078, 604807628,
   770255983, 1249150122, 1555081692, 1996064986, 2554220882,
   2821834349, 2952996808, 3210313671, 3336571891, 3584528711,
   113926993, 338241895, 666307205, 773529912, 1294757372,
   1396182291, 1695183700, 1986661051, 2177026350, 2456956037,
   2730485921, 2820302411, 3259730800, 3345764771, 3516065817,
   3600352804, 4094571909, 275423344, 430227734, 506948616,
   659060556, 883997877, 958139571, 1322822218, 1537002063,
   1747873779, 1955562222, 2024104815, 2227730452, 2361852424,
   2428436474, 2756734187, 3204031479, 3329325298]

/-- The initial SHA-256 hash state of FIPS 180-4, written in decimal. -/
def sha256H0 : List Nat :=
  [1779033703, 3144134277, 1013904242, 2773480762,
   1359893119, 2600822924, 528734635, 1541459225]

/-- Group a list of bytes into big-endian 32-bit words. -/
def bytesToWords (bs : List Nat) : List Nat :=
  (List.range (bs.length / 4)).map fun i =>
    ((bs.getD (4 * i) 0) <<< 24) + ((bs.getD (4 * i + 1) 0) <<< 16) +
      ((bs.getD (4 * i + 2) 0) <<< 8) + bs.getD (4 * i + 3) 0

/-- Expand the 16 words of a block to the 64-word message schedule. -/
def sha256Sched (w16 : List Nat) : Array Nat :=
  (List.range 48).foldl
    (fun ws i =>
      ws.push (u32 (smallSig1 (ws.getD (i + 14) 0) + ws.getD (i + 9) 0 +
        smallSig0 (ws.getD (i + 1) 0) + ws.getD i 0)))
    w16.toArray

/-- One SHA-256 compression round acting on the eight working variables. -/
def sha256Round (ws : Array Nat) (st : Nat × Nat × Nat × Nat × Nat × Nat × Nat × Nat)
    (i : Nat) : Nat × Nat × Nat × Nat × Nat × Nat × Nat × Nat :=
  match st with
  | (a, b, c, d, e, f, g, h) =>
    let ch := (e &&& f) ^^^ ((e ^^^ 4294967295) &&& g)
    let maj := (a &&& b) ^^^ (a &&& c) ^^^ (b &&& c)
    let t1 := u32 (h + bigSig1 e + ch + sha256K.getD i 0 + ws.getD i 0)
    let t2 := u32 (bigSig0 a + maj)
    (u32 (t1 + t2), a, b, c, u32 (d + t1), e, f, g)

/-- Compress one 64-byte block into the running hash state. -/
def sha256Compress (h : List Nat) (block : List Nat) : List Nat :=
  let ws := sha256Sched (bytesToWords block)
  let st0 := (h.getD 0 0, h.getD 1 0, h.getD 2 0, h.getD 3 0,
              h.getD 4 0, h.getD 5 0, h.getD 6 0, h.getD 7 0)
  let st := (List.range 64).foldl (sha256Round ws) st0
  [u32 (h.getD 0 0 + st.1), u32 (h.getD 1 0 + st.2.1),
   u32 (h.getD 2 0 + st.2.2.1), u32 (h.getD 3 0 + st.2.2.2.1),
   u32 (h.getD 4 0 + st.2.2.2.2.1), u32 (h.getD 5 0 + st.2.2.2.2.2.1),
   u32 (h.getD 6 0 + st.2.2.2.2.2.2.1), u32 (h.getD 7 0 + st.2.2.2.2.2.2.2)]

/-- Pad a byte message per SHA-256: 0x80, zeros, 64-bit big-endian bit length. -/
def sha256Pad (msg : List Nat) : List Nat :=
  msg ++ [0x80] ++ List.replicate ((120 - ((msg.length + 1) % 64)) % 64) 0 ++
    ((List.range 8).map fun i => ((msg.length * 8) >>> (8 * (7 - i))) % 256)

/-- Split a padded message into its 64-byte blocks. -/
def sha256Blocks (padded : List Nat) : List (List Nat) :=
  (List.range (padded.length / 64)).map fun i => (padded.drop (64 * i)).take 64

/-- Serialize the eight-word hash state as 32 big-endian bytes. -/
def sha256Digest (H : List Nat) : List Nat :=
  H.foldr (fun w acc => ((List.range 4).map fun j => (w >>> (8 * (3 - j))) % 256) ++ acc) []

/-- SHA-256 digest of a byte string, as 32 bytes. -/
def sha256Bytes (msg : List Nat) : List Nat :=
  sha256Digest ((sha256Blocks (sha256Pad msg)).foldl sha256Compress sha256H0)

/-- Lower-case hex digit for a nibble. -/
def hexChar (n : Nat) : Char := Char.ofNat (if n < 10 then 48 + n else 87 + n)

/-- Lower-case hex string of a byte list (the digest('hex') encoding). -/
def bytesToHex (bs : List Nat) : String :=
  String.mk (bs.foldr (fun b acc => hexChar (b / 16) :: hexChar (b % 16) :: acc) [])

/-- UTF-8 bytes of a string; for the ASCII identifiers and network names used
here this is the code-point list. -/
def strBytes (s : String) : List Nat := s.data.map Char.toNat

/-! ## Keccak-256, used by the EIP-55 checksum branch of ethers.isAddress -/

/-- Truncate to an unsigned 64-bit word. -/
def u64 (x : Nat) : Nat := x % 18446744073709551616

/-- Rotate a 64-bit word left by n bits. -/
def rotl64 (n x : Nat) : Nat := u64 ((x <<< n) ||| (x >>> (64 - n)))

/-- Bitwise complement of a 64-bit word. -/
def not64 (x : Nat) : Nat := 18446744073709551615 - x

/-- The 24 Keccak-f[1600] round constants, in decimal. -/
def keccakRC : List Nat :=
  [1, 32898, 9223372036854808714, 9223372039002292224, 32907,
   2147483649, 9223372039002292353, 9223372036854808585, 138, 136,
   2147516425, 2147483658, 2147516555, 9223372036854775947,
   9223372036854808713, 9223372036854808579, 9223372036854808578,
   9223372036854775936, 32778, 9223372039002259466, 9223372039002292353,
   9223372036854808704, 2147483649, 9223372039002292232]

/-- Rho rotation offsets as lane/offset pairs, generated by the FIPS 202
rule: starting from lane (1,0), step t rotates by the triangular number
(t+1)(t+2)/2 mod 64 and moves on to lane (y, 2x+3y mod 5); lane (0,0),
absent here, rotates by 0. -/
def keccakRotPairs : List (Nat × Nat) :=
  ((List.range 24).foldl
    (fun st t =>
      let x := st.1.1
      let y := st.1.2
      ((y, (2 * x + 3 * y) % 5), (x + 5 * y, ((t + 1) * (t + 2) / 2) % 64) :: st.2))
    ((1, 0), [])).2

/-- Rotation offset of the rho step for lane x + 5*y. -/
def keccakRot (i : Nat) : Nat := (keccakRotPairs.lookup i).getD 0

/-- Theta step on the 25-lane state (lane i holds column i % 5, row i / 5). -/
def keccakTheta (A : List Nat) : List Nat :=
  let C := (List.range 5).map fun x =>
    (A.getD x 0) ^^^ (A.getD (x + 5) 0) ^^^ (A.getD (x + 10) 0) ^^^
      (A.getD (x + 15) 0) ^^^ (A.getD (x + 20) 0)
  (List.range 25).map fun i =>
    (A.getD i 0) ^^^ (C.getD ((i % 5 + 4) % 5) 0) ^^^ rotl64 1 (C.getD ((i % 5 + 1) % 5) 0)

/-- Combined rho and pi steps: target lane (y, 2x+3y) receives the rotated
source lane (x, y); written here by inverting the index map. -/
def keccakRhoPi (A : List Nat) : List Nat :=
  (List.range 25).map fun j =>
    let i := (3 * (j / 5) + j % 5) % 5 + 5 * (j % 5)
    rotl64 (keccakRot i) (A.getD i 0)

/-- Chi step, row-wise nonlinearity. -/
def keccakChi (B : List Nat) : List Nat :=
  (List.range 25).map fun j =>
    (B.getD j 0) ^^^ (not64 (B.getD ((j % 5 + 1) % 5 + 5 * (j / 5)) 0) &&&
      B.getD ((j % 5 + 2) % 5 + 5 * (j / 5)) 0)

/-- One Keccak-f round: theta, rho-pi, chi, then iota on lane 0. -/
def keccakRound (A : List Nat) (rc : Nat) : List Nat :=
  let C := keccakChi (keccakRhoPi (keccakTheta A))
  (List.range 25).map fun j => if j = 0 then u64 ((C.getD 0 0) ^^^ rc) else C.getD j 0

/-- The full Keccak-f[1600] permutation. -/
def keccakP (A : List Nat) : List Nat := keccakRC.foldl keccakRound A

/-- Little-endian 64-bit lane from 8 bytes. -/
def laneOfBytes (bs : List Nat) : Nat :=
  (List.range 8).foldl (fun acc i => acc + ((bs.getD i 0) <<< (8 * i))) 0

/-- Absorb one 136-byte block into the state. -/
def keccakAbsorb (A : List Nat) (block : List Nat) : List Nat :=
  keccakP ((List.range 25).map fun j =>
    if j < 17 then (A.getD j 0) ^^^ laneOfBytes ((block.drop (8 * j)).take 8)
    else A.getD j 0)

/-- Original-Keccak multi-rate padding at rate 136: append 0x01, zeros,
0x80 (a single 0x81 when one byte is left in the block). -/
def keccakPad (msg : List Nat) : List Nat :=
  if msg.length % 136 = 135 then msg ++ [129]
  else msg ++ [1] ++ List.replicate (134 - msg.length % 136) 0 ++ [128]

/-- Keccak-256 digest of a byte string (Ethereum's keccak256), as 32 bytes. -/
def keccak256Bytes (msg : List Nat) : List Nat :=
  let padded := keccakPad msg
  let A := ((List.range (padded.length / 136)).map fun i =>
    (padded.drop (136 * i)).take 136).foldl keccakAbsorb (List.replicate 25 0)
  (List.range 32).map fun i => ((A.getD (i / 8) 0) >>> (8 * (i % 8))) % 256

/-! ## Lock store (filesystem-backed, src/unnamed/part_000 lines 66-160) -/

/-- Millisecond constants from the source: 24h cooldown, 60s pending. -/
def COOLDOWN_MS : Nat := 24 * 60 * 60 * 1000

def PENDING_MS : Nat := 60 * 1000

/-- hashKey: hex SHA-256 of "ip|network". -/
def hashKey (ip network : String) : String :=
  bytesToHex (sha256Bytes (strBytes (ip ++ "|" ++ network)))

/-- Cooldown lock file name for a client/network pair (the constant LOCK_DIR
prefix, shared by every path, is dropped). -/
def lockPathFor (ip network : String) : String := hashKey ip network ++ ".lock"

/-- Pending lock file name for a client/network pair. -/
def pendingPathFor (ip network : String) : String := hashKey ip network ++ ".pending"

/-- Content of one lock file as the read code distinguishes it:
absent (ENOENT), a read error, a JSON parse error, a parsed object whose
expiresAt is not a number, or a well-formed record. Metadata is the spread
key/value payload. -/
inductive LockFile where
  | absent : LockFile
  | unreadable : LockFile
  | badJson : LockFile
  | badExpiry : LockFile
  | record (firstSeenAt expiresAt : Nat) (meta : List (String × String)) : LockFile
deriving DecidableEq, Repr

/-- The lock directory: file name to content. -/
abbrev Store := List (String × LockFile)

def storeRead (s : Store) (p : String) : LockFile := (s.lookup p).getD .absent

def storeErase (s : Store) (p : String) : Store := s.filter fun kv => kv.1 != p

def storeWrite (s : Store) (p : String) (f : LockFile) : Store := (p, f) :: storeErase s p

/-- getIpCooldown: remaining ms of the cooldown lock, 0 when absent, expired
or corrupt. An expired record, or one whose expiresAt is not a number, is
unlinked; a read or parse failure is swallowed by the catch. Returns the
remaining milliseconds together with the store after the read. -/
def getIpCooldown (now : Nat) (ip network : String) (s : Store) : Nat × Store :=
  let p := lockPathFor ip network
  match storeRead s p with
  | .record _ e _ => if e > now then (e - now, s) else (0, storeErase s p)
  | .badExpiry => (0, storeErase s p)
  | .absent => (0, s)
  | .unreadable => (0, s)
  | .badJson => (0, s)

/-- getIpPending: same shape as getIpCooldown, on the .pending file. -/
def getIpPending (now : Nat) (ip network : String) (s : Store) : Nat × Store :=
  let p := pendingPathFor ip network
  match storeRead s p with
  | .record _ e _ => if e > now then (e - now, s) else (0, storeErase s p)
  | .badExpiry => (0, storeErase s p)
  | .absent => (0, s)
  | .unreadable => (0, s)
  | .badJson => (0, s)

/-- setIpCooldown: write {firstSeenAt, expiresAt: now+24h, ...meta}. -/
def setIpCooldown (now : Nat) (ip network : String) (meta : List (String × String))
    (s : Store) : Store :=
  storeWrite s (lockPathFor ip network) (.record now (now + COOLDOWN_MS) meta)

/-- setIpPending: write {firstSeenAt, expiresAt: now+60s, ...meta}. -/
def setIpPending (now : Nat) (ip network : String) (meta : List (String × String))
    (s : Store) : Store :=
  storeWrite s (pendingPathFor ip network) (.record now (now + PENDING_MS) meta)

def clearIpCooldown (ip network : String) (s : Store) : Store :=
  storeErase s (lockPathFor ip network)

def clearIpPending (ip network : String) (s : Store) : Store :=
  storeErase s (pendingPathFor ip network)

/-! ## Captcha verifier (verifyHCaptcha, lines 43-64) -/

/-- Parsed body of the hCaptcha siteverify response; success is the boolean
coercion the code applies with a double negation. -/
structure CaptchaData where
  success : Bool
deriving DecidableEq, Repr

/-- Outcome of the fetch to hcaptcha.com plus the JSON parse: a thrown
error (network failure or unparseable body) or parsed data. -/
abbrev CaptchaUpstream := Except String CaptchaData

/-- verifyHCaptcha: false when the secret is the empty string (the env
default, falsy); otherwise the request carries the token, or the empty
string when the token is missing, and the try/catch makes the function
total: any upstream throw becomes false, otherwise the coerced success
flag is returned. The token is not consulted for the result. -/
def verifyHCaptcha (secret : String) (token : Option String)
    (upstream : CaptchaUpstream) : Bool :=
  if secret = "" then false
  else
    match upstream with
    | .error _ => false
    | .ok data => data.success

/-! ## Configuration and chain oracle -/

/-- Per-network RPC URLs from the environment; a missing or empty variable
is falsy in the source's truthiness test. -/
structure Config where
  polygonRpc : Option String
  avaxRpc : Option String
  sepoliaRpc : Option String
  baseRpc : Option String
  hcaptchaSecret : String
deriving DecidableEq, Repr

/-- Result of a JavaScript property read obj[key] on a plain object
literal: an own property holding a string, undefined for an unknown name
(or an unset env variable), or a member inherited from Object.prototype —
for client-supplied names such as "constructor" or "toString" the read
yields a function (for "__proto__" an object), never undefined. -/
inductive JsProp where
  | str (s : String) : JsProp
  | undefined : JsProp
  | protoMember : JsProp
deriving DecidableEq, Repr

/-- The Object.prototype property names reachable by a string key on a
plain object literal. -/
def objectProtoKeys : List String :=
  ["constructor", "hasOwnProperty", "isPrototypeOf", "propertyIsEnumerable",
   "toLocaleString", "toString", "valueOf", "__defineGetter__",
   "__defineSetter__", "__lookupGetter__", "__lookupSetter__", "__proto__"]

/-- An own property whose value comes from the environment: an unset
variable reads as undefined. -/
def jsPropOfEnv : Option String → JsProp
  | some s => .str s
  | none => .undefined

/-- RPC table (lines 27-32), as the JS property read RPC[network]: the four
own keys first, then the inherited Object.prototype members, then
undefined. -/
def RPC (cfg : Config) (network : String) : JsProp :=
  if network = "amoy" then jsPropOfEnv cfg.polygonRpc
  else if network = "avax" then jsPropOfEnv cfg.avaxRpc
  else if network = "sepolia" then jsPropOfEnv cfg.sepoliaRpc
  else if network = "base" then jsPropOfEnv cfg.baseRpc
  else if objectProtoKeys.contains network then .protoMember
  else .undefined

/-- FAUCET_CONTRACTS table (lines 18-24), as the JS property read. -/
def FAUCET_CONTRACTS (network : String) : JsProp :=
  if network = "amoy" then .str "0x9c33b5Ad90570262A4b49abAFf47e4Ef7DeC3c08"
  else if network = "avax" then .str "0x9c33b5Ad90570262A4b49abAFf47e4Ef7DeC3c08"
  else if network = "sepolia" then .str "0x9c33b5Ad90570262A4b49abAFf47e4Ef7DeC3c08"
  else if network = "base" then .str "0x9c33b5Ad90570262A4b49abAFf47e4Ef7DeC3c08"
  else if objectProtoKeys.contains network then .protoMember
  else .undefined

/-- JavaScript truthiness of the looked-up value: a non-empty string and
any inherited function or object are truthy; undefined and the empty
string are falsy. -/
def truthy : JsProp → Bool
  | .str s => s != ""
  | .undefined => false
  | .protoMember => true

/-- Shape of a thrown JavaScript error as the handler inspects it:
possibly-undefined code and reason fields, and a message. -/
structure JsError where
  code : Option String
  reason : Option String
  message : String
deriving DecidableEq, Repr

/-- Outcome of await faucet.adminClaimFor(recipient) followed by tx.wait():
a confirmed transaction hash, or a thrown error. -/
inductive DispatchResult where
  | ok (txHash : String) : DispatchResult
  | err (e : JsError) : DispatchResult
deriving DecidableEq, Repr

/-- Oracle for the four contract calls this request would perform; each read
either yields a uint256 value or throws. -/
structure ChainEnv where
  claimAmountRes : Except JsError Nat
  dispatchRes : DispatchResult
  lastClaimRes : Except JsError Nat
  cooldownRes : Except JsError Nat
deriving Repr

/-! ## The /claim handler (lines 167-254) -/

def isHexDigitChar (c : Char) : Bool :=
  (48 ≤ c.toNat && c.toNat ≤ 57) || (97 ≤ c.toNat && c.toNat ≤ 102) ||
    (65 ≤ c.toNat && c.toNat ≤ 70)

def hasUpperHex (cs : List Char) : Bool := cs.any fun c => 65 ≤ c.toNat && c.toNat ≤ 70

def hasLowerHex (cs : List Char) : Bool := cs.any fun c => 97 ≤ c.toNat && c.toNat ≤ 102

def isDigitChar (c : Char) : Bool := 48 ≤ c.toNat && c.toNat ≤ 57

def isAlnumChar (c : Char) : Bool :=
  isDigitChar c || (65 ≤ c.toNat && c.toNat ≤ 90) || (97 ≤ c.toNat && c.toNat ≤ 122)

/-- Lower-case a letter, as String.prototype.toLowerCase does per char. -/
def lowerHexChar (c : Char) : Char :=
  if 65 ≤ c.toNat && c.toNat ≤ 90 then Char.ofNat (c.toNat + 32) else c

/-- Upper-case a letter, as String.prototype.toUpperCase does per char. -/
def upperHexChar (c : Char) : Char :=
  if 97 ≤ c.toNat && c.toNat ≤ 122 then Char.ofNat (c.toNat - 32) else c

/-- EIP-55 recapitalization of ethers getChecksumAddress on the 40 hex
digits: lower-case them, keccak-256 their ASCII bytes, and upper-case
each hex letter whose corresponding hash nibble is 8 or more. -/
def eip55Checksum (body : List Char) : List Char :=
  let lower := body.map lowerHexChar
  let hash := keccak256Bytes (lower.map Char.toNat)
  (List.range 40).map fun i =>
    let nib := if i % 2 = 0 then (hash.getD (i / 2) 0) >>> 4 else (hash.getD (i / 2) 0) % 16
    if 8 ≤ nib then upperHexChar (lower.getD i '0') else lower.getD i '0'

/-- ICAP shape accepted by ethers getAddress: XE, two digits, then 30 or
31 base-36 characters of either case. -/
def isIcapFormat (cs : List Char) : Bool :=
  (cs.length == 34 || cs.length == 35) && cs.take 2 == ['X', 'E'] &&
    ((cs.drop 2).take 2).all isDigitChar && (cs.drop 4).all isAlnumChar

/-- Value of a character in the IBAN expansion after upper-casing: digits
stand for themselves, letters of either case for 10..35. -/
def ibanCharVal (c : Char) : Nat :=
  if isDigitChar c then c.toNat - 48
  else if 65 ≤ c.toNat && c.toNat ≤ 90 then c.toNat - 55
  else if 97 ≤ c.toNat && c.toNat ≤ 122 then c.toNat - 87
  else 0

/-- The decimal reading of the IBAN expansion: a digit contributes one
decimal digit, a letter its two-digit value. -/
def ibanNum (cs : List Char) : Nat :=
  cs.foldl (fun acc c =>
    if isDigitChar c then acc * 10 + ibanCharVal c else acc * 100 + ibanCharVal c) 0

/-- ethers ibanChecksum agreement: the characters after the first four are
moved in front of XE00, the whole is read as the expanded decimal number,
and 98 minus its remainder mod 97, zero-padded to two digits, must equal
characters 2 and 3 of the address. -/
def icapChecksumOk (cs : List Char) : Bool :=
  let check := 98 - ibanNum (cs.drop 4 ++ ['X', 'E', '0', '0']) % 97
  cs.getD 2 ' ' == Char.ofNat (48 + check / 10) &&
    cs.getD 3 ' ' == Char.ofNat (48 + check % 10)

/-- Model of the third-party ethers.isAddress (ethers v6 getAddress in a
try/catch): a string of 40 hex digits with an optional 0x prefix is a
valid address when its hex letters are not mixed-case, or when it equals
its own EIP-55 keccak recapitalization — so correctly checksummed
mixed-case addresses, the canonical display format, are accepted; an
ICAP-shaped string is valid when its mod-97 IBAN checksum matches; every
other string is invalid. -/
def ethersIsAddress (s : String) : Bool :=
  let cs := s.data
  let body := if cs.take 2 == ['0', 'x'] then cs.drop 2 else cs
  if body.length == 40 && body.all isHexDigitChar then
    !(hasUpperHex body && hasLowerHex body) || body == eip55Checksum body
  else if isIcapFormat cs then icapChecksumOk cs
  else false

/-- Body of the POST /claim request plus the derived client identifier
(getClientIp, computed from the transport layer before any step modelled
here). A missing captchaToken field is none. -/
structure Req where
  network : String
  recipient : String
  captchaToken : Option String
  clientIp : String
deriving DecidableEq, Repr

/-- JSON response of the handler together with the HTTP status
(res.send without status is 200). -/
structure ClaimResp where
  status : Nat
  success : Bool
  error : Option String
  wait : Option Int
  txHash : Option String
deriving DecidableEq, Repr

/-- External interactions the handler performs, in order: the captcha
verification call, the two lock reads, the lock writes/clears, and the
four contract calls. -/
inductive Ev where
  | captchaCall : Ev
  | cooldownRead : Ev
  | pendingRead : Ev
  | pendingWrite : Ev
  | cooldownWrite : Ev
  | pendingClear : Ev
  | chainClaimAmount : Ev
  | chainDispatch : Ev
  | chainLastClaim : Ev
  | chainCooldown : Ev
deriving DecidableEq, Repr

/-- Result of one handler run: the HTTP response, the lock directory after
the run, and the trace of external interactions. -/
structure HandlerOut where
  resp : ClaimResp
  store : Store
  trace : List Ev
deriving DecidableEq, Repr

def respFail (status : Nat) (error : String) : ClaimResp :=
  { status := status, success := false, error := some error, wait := none, txHash := none }

def respWait (status : Nat) (wait : Int) : ClaimResp :=
  { status := status, success := false, error := some "Wait before next claim",
    wait := some wait, txHash := none }

/-- Tail of the /claim handler after the pending lock was written (source
lines 206-247): network validation against the truthiness of the RPC and
FAUCET_CONTRACTS property reads, ethers.isAddress on the recipient, then
the chain steps. claimAmountRes stands for everything from the provider
and contract construction through the awaited claimAmount read (lines
215-219): a throw anywhere there — including a construction throw when
the looked-up rpcUrl is an inherited Object.prototype member rather than
a URL string — reaches the outer catch as a 500 and the pending lock
stays. On a
confirmed dispatch: cooldown lock written with recipient/network/txHash
metadata, pending cleared, 200 with the hash. On a thrown dispatch error
with code CALL_EXCEPTION and reason "Wait before next claim": lastClaim
and cooldown reads (a throw reaches the outer catch, the pending lock
stays), waitSeconds = lastClaim + cooldown - floor(now/1000) clamped at
0, pending cleared, 400. On any other dispatch error: pending cleared,
rethrown, outer catch 500 with the message. s3 is the store holding the
fresh pending lock, tr3 the trace so far. -/
def afterLocks (cfg : Config) (chain : ChainEnv) (now : Nat) (req : Req)
    (s3 : Store) (tr3 : List Ev) : HandlerOut :=
  if !truthy (RPC cfg req.network) || !truthy (FAUCET_CONTRACTS req.network) then
    ⟨respFail 400 "Invalid network", s3, tr3⟩
  else if !ethersIsAddress req.recipient then
    ⟨respFail 400 "Invalid recipient address", s3, tr3⟩
  else
    match chain.claimAmountRes with
    | .error e => ⟨respFail 500 e.message, s3, tr3 ++ [.chainClaimAmount]⟩
    | .ok _ =>
      match chain.dispatchRes with
      | .ok h =>
        let s4 := setIpCooldown now req.clientIp req.network
          [("lastAddress", req.recipient), ("lastNetwork", req.network), ("txHash", h)] s3
        let s5 := clearIpPending req.clientIp req.network s4
        ⟨{ status := 200, success := true, error := none, wait := none, txHash := some h },
          s5, tr3 ++ [.chainClaimAmount, .chainDispatch, .cooldownWrite, .pendingClear]⟩
      | .err e =>
        if e.code = some "CALL_EXCEPTION" ∧ e.reason = some "Wait before next claim" then
          match chain.lastClaimRes with
          | .error e2 =>
            ⟨respFail 500 e2.message, s3,
              tr3 ++ [.chainClaimAmount, .chainDispatch, .chainLastClaim]⟩
          | .ok last =>
            match chain.cooldownRes with
            | .error e3 =>
              ⟨respFail 500 e3.message, s3,
                tr3 ++ [.chainClaimAmount, .chainDispatch, .chainLastClaim, .chainCooldown]⟩
            | .ok cd =>
              let waitSeconds : Int := (last : Int) + (cd : Int) - ((now / 1000 : Nat) : Int)
              let s4 := clearIpPending req.clientIp req.network s3
              ⟨respWait 400 (if waitSeconds > 0 then waitSeconds else 0), s4,
                tr3 ++ [.chainClaimAmount, .chainDispatch, .chainLastClaim,
                  .chainCooldown, .pendingClear]⟩
        else
          let s4 := clearIpPending req.clientIp req.network s3
          ⟨respFail 500 e.message, s4,
            tr3 ++ [.chainClaimAmount, .chainDispatch, .pendingClear]⟩

/-- The POST /claim orchestrator (source lines 167-254). Steps in source
order: falsy-token check; verifyHCaptcha; cooldown lock read (429 with
ceil(remaining/1000) when active); pending lock read (same); pending lock
write; then the validation/dispatch tail afterLocks. -/
def claimHandler (cfg : Config) (chain : ChainEnv) (upstream : CaptchaUpstream)
    (now : Nat) (req : Req) (s0 : Store) : HandlerOut :=
  if req.captchaToken = none ∨ req.captchaToken = some "" then
    ⟨respFail 400 "Invalid captcha", s0, []⟩
  else if !verifyHCaptcha cfg.hcaptchaSecret req.captchaToken upstream then
    ⟨respFail 400 "Invalid captcha", s0, [.captchaCall]⟩
  else
    let r1 := getIpCooldown now req.clientIp req.network s0
    if r1.1 > 0 then
      ⟨respWait 429 ((r1.1 + 999) / 1000), r1.2, [.captchaCall, .cooldownRead]⟩
    else
      let r2 := getIpPending now req.clientIp req.network r1.2
      if r2.1 > 0 then
        ⟨respWait 429 ((r2.1 + 999) / 1000), r2.2, [.captchaCall, .cooldownRead, .pendingRead]⟩
      else
        afterLocks cfg chain now req
          (setIpPending now req.clientIp req.network
            [("recipient", req.recipient), ("network", req.network)] r2.2)
          [.captchaCall, .cooldownRead, .pendingRead, .pendingWrite]

/-! ## Concrete fixtures used by witnesses and counterexamples -/

/-- A deployment with every RPC variable set and a captcha secret. -/
def sampleCfg : Config :=
  ⟨some "https://polygon-amoy.example/rpc", some "https://avax.example/rpc",
   some "https://sepolia.example/rpc", some "https://base.example/rpc", "sec"⟩

/-- A chain oracle where every call succeeds and the dispatch confirms. -/
def chainAllOk : ChainEnv := ⟨.ok 100000000000000000, .ok "0xdeadbeef", .ok 0, .ok 86400⟩

/-- A chain oracle whose dispatch reverts with the contract cooldown reason. -/
def chainRejects : ChainEnv :=
  ⟨.ok 100000000000000000,
   .err ⟨some "CALL_EXCEPTION", some "Wait before next claim",
     "execution reverted: Wait before next claim"⟩,
   .ok 950, .ok 86400⟩

/-- An upstream captcha verdict that reports success. -/
def captchaYes : CaptchaUpstream := .ok ⟨true⟩

/-- A well-formed all-lower-case recipient address. -/
def goodAddr : String := "0xf39fd6e51aad88f6f4ce6ab8827279cfffb92266"

/-- A lock directory holding one fresh pending lock, written at 999000 for
client 1.2.3.4 on network amoy (so it expires at 999000 + PENDING_MS). -/
def c3Store : Store :=
  [(pendingPathFor "1.2.3.4" "amoy",
    .record 999000 (999000 + PENDING_MS) [("recipient", goodAddr), ("network", "amoy")])]

/-! ## Store lemmas -/

theorem lookup_storeErase_self (s : Store) (p : String) : (storeErase s p).lookup p = none := by
  induction s with
  | nil => rfl
  | cons kv t ih =>
    rcases eq_or_ne kv.1 p with h | h
    · simpa [storeErase, List.filter_cons, h] using ih
    · have hb : (kv.1 != p) = true := by simp [bne_iff_ne, h]
      have hq : (p == kv.1) = false := beq_eq_false_iff_ne.mpr (Ne.symm h)
      simpa [storeErase, List.filter_cons, hb, List.lookup, hq] using ih

theorem lookup_storeErase_ne (s : Store) (p q : String) (h : q ≠ p) :
    (storeErase s p).lookup q = s.lookup q := by
  induction s with
  | nil => rfl
  | cons kv t ih =>
    rcases eq_or_ne kv.1 p with hk | hk
    · have hb : (kv.1 != p) = false := by simp [bne_iff_ne, hk]
      have hq : (q == kv.1) = false := beq_eq_false_iff_ne.mpr fun he => h (he.trans hk)
      simpa [storeErase, List.filter_cons, hb, List.lookup, hq] using ih
    · have hb : (kv.1 != p) = true := by simp [bne_iff_ne, hk]
      rcases eq_or_ne q kv.1 with hq | hq
      · simp [storeErase, List.filter_cons, hb, List.lookup, hq]
      · have hq2 : (q == kv.1) = false := beq_eq_false_iff_ne.mpr hq
        simpa [storeErase, List.filter_cons, hb, List.lookup, hq2] using ih

theorem storeRead_storeErase_self (s : Store) (p : String) :
    storeRead (storeErase s p) p = .absent := by
  simp [storeRead, lookup_storeErase_self]

theorem storeRead_storeErase_ne (s : Store) (p q : String) (h : q ≠ p) :
    storeRead (storeErase s p) q = storeRead s q := by
  simp [storeRead, lookup_storeErase_ne s p q h]

theorem storeRead_storeWrite_self (s : Store) (p : String) (f : LockFile) :
    storeRead (storeWrite s p f) p = f := by
  simp [storeRead, storeWrite, List.lookup]

theorem storeRead_storeWrite_ne (s : Store) (p q : String) (f : LockFile) (h : q ≠ p) :
    storeRead (storeWrite s p f) q = storeRead s q := by
  have : (q == p) = false := by simpa [beq_eq_false_iff_ne]
  simp [storeRead, storeWrite, List.lookup, this, lookup_storeErase_ne s p q h]

/-- The cooldown and pending lock of one client/network pair live in two
distinct files: same hash, different extension. -/
theorem lockPathFor_ne_pendingPathFor (ip network : String) :
    lockPathFor ip network ≠ pendingPathFor ip network := by
  intro h
  have hlen := congrArg String.length h
  have h5 : (".lock" : String).length = 5 := rfl
  have h8 : (".pending" : String).length = 8 := rfl
  simp only [lockPathFor, pendingPathFor, String.length_append, h5, h8] at hlen
  omega

/-- A read of an absent cooldown lock returns 0 and leaves the store alone. -/
theorem getIpCooldown_absent (now : Nat) (ip network : String) (s : Store)
    (h : storeRead s (lockPathFor ip network) = .absent) :
    getIpCooldown now ip network s = (0, s) := by
  simp [getIpCooldown, h]

/-- A read of an absent pending lock returns 0 and leaves the store alone. -/
theorem getIpPending_absent (now : Nat) (ip network : String) (s : Store)
    (h : storeRead s (pendingPathFor ip network) = .absent) :
    getIpPending now ip network s = (0, s) := by
  simp [getIpPending, h]

/-- Reduction of the handler through the captcha and lock gates: when the
token is present and non-empty, the captcha verifies, and both lock files
for the request's client/network pair are absent, the run is the
validation/dispatch tail on the store holding the fresh pending lock. -/
theorem claimHandler_pastLocks (cfg : Config) (chain : ChainEnv)
    (upstream : CaptchaUpstream) (now : Nat) (req : Req) (s0 : Store)
    (h1 : req.captchaToken ≠ none) (h2 : req.captchaToken ≠ some "")
    (hcap : verifyHCaptcha cfg.hcaptchaSecret req.captchaToken upstream = true)
    (hcd : storeRead s0 (lockPathFor req.clientIp req.network) = .absent)
    (hpd : storeRead s0 (pendingPathFor req.clientIp req.network) = .absent) :
    claimHandler cfg chain upstream now req s0 =
      afterLocks cfg chain now req
        (setIpPending now req.clientIp req.network
          [("recipient", req.recipient), ("network", req.network)] s0)
        [.captchaCall, .cooldownRead, .pendingRead, .pendingWrite] := by
  rw [claimHandler, if_neg (by simp [h1, h2]), if_neg (by simp [hcap])]
  rw [getIpCooldown_absent now _ _ _ hcd]
  simp only [if_neg (by omega : ¬ ((0, s0).1 > 0))]
  rw [getIpPending_absent now _ _ _ hpd]
  simp only [if_neg (by omega : ¬ ((0, s0).1 > 0))]

/-- The clamp the handler applies to waitSeconds is the max with 0. -/
theorem ite_pos_eq_max (w : Int) : (if w > 0 then w else 0) = max 0 w := by
  rcases le_or_lt w 0 with h | h
  · rw [if_neg (by omega), max_eq_left h]
  · rw [if_pos h, max_eq_right h.le]

/-! ## Digest shape lemmas: every hashKey is 64 hex characters, so the
.lock and .pending file names never collide, across any pair of keys. -/

theorem sha256Compress_length (h bl : List Nat) : (sha256Compress h bl).length = 8 := rfl

theorem foldl_sha256Compress_length (bs : List (List Nat)) (h : List Nat)
    (hh : h.length = 8) : (bs.foldl sha256Compress h).length = 8 := by
  induction bs generalizing h with
  | nil => simpa
  | cons b t ih => exact ih _ (sha256Compress_length h b)

theorem sha256Digest_length (H : List Nat) : (sha256Digest H).length = 4 * H.length := by
  induction H with
  | nil => rfl
  | cons w t ih =>
    simp only [sha256Digest, List.foldr_cons, List.length_append, List.length_map,
      List.length_range, List.length_cons] at ih ⊢
    omega

theorem sha256Bytes_length (msg : List Nat) : (sha256Bytes msg).length = 32 := by
  rw [sha256Bytes, sha256Digest_length,
    foldl_sha256Compress_length (sha256Blocks (sha256Pad msg)) sha256H0 (by rfl)]

theorem bytesToHex_length (bs : List Nat) : (bytesToHex bs).length = 2 * bs.length := by
  show (bs.foldr (fun b acc => hexChar (b / 16) :: hexChar (b % 16) :: acc) []).length
    = 2 * bs.length
  induction bs with
  | nil => rfl
  | cons b t ih => simp only [List.foldr_cons, List.length_cons, ih]; omega

theorem hashKey_length (ip network : String) : (hashKey ip network).length = 64 := by
  rw [hashKey, bytesToHex_length, sha256Bytes_length]

/-- A cooldown file name never equals a pending file name, whatever the
keys: same digest length, different extension length. -/
theorem lockPathFor_ne_pendingPathFor_pairs (ip1 n1 ip2 n2 : String) :
    lockPathFor ip1 n1 ≠ pendingPathFor ip2 n2 := by
  intro h
  have hlen := congrArg String.length h
  have h5 : (".lock" : String).length = 5 := rfl
  have h8 : (".pending" : String).length = 8 := rfl
  simp only [lockPathFor, pendingPathFor, String.length_append, hashKey_length,
    h5, h8] at hlen
  omega

/-- Pending file names of two key pairs with different digests differ. -/
theorem pendingPathFor_ne_of_hashKey_ne (ip1 n1 ip2 n2 : String)
    (h : hashKey ip1 n1 ≠ hashKey ip2 n2) :
    pendingPathFor ip1 n1 ≠ pendingPathFor ip2 n2 := by
  intro he
  apply h
  have hd : (hashKey ip1 n1).data ++ (".pending" : String).data
      = (hashKey ip2 n2).data ++ (".pending" : String).data := congrArg String.data he
  exact String.ext (List.append_cancel_right hd)

set_option maxRecDepth 100000 in
/-- The digests of the two client/network keys used by the C3 scenario:
same client, networks amoy and sepolia. -/
theorem hashKey_amoy_ne_sepolia :
    hashKey "1.2.3.4" "amoy" ≠ hashKey "1.2.3.4" "sepolia" := by decide

set_option maxRecDepth 100000 in
/-- The embedded Keccak-256 on the empty input, checked against the
reference digest. -/
theorem keccak256Bytes_empty_vector :
    bytesToHex (keccak256Bytes []) =
      "c5d2460186f7233c927e7db2dcc703c0e500b653ca82273b7bfad8045d85a470" := by decide

set_option maxRecDepth 100000 in
/-- The isAddress model on the EIP-55 branch: the repository's own
checksummed mixed-case contract constant is accepted, and the same string
with its first capital lowered — a bad checksum — is rejected. -/
theorem ethersIsAddress_checksum_examples :
    ethersIsAddress "0x9c33b5Ad90570262A4b49abAFf47e4Ef7DeC3c08" = true ∧
    ethersIsAddress "0x9c33b5ad90570262A4b49abAFf47e4Ef7DeC3c08" = false := by decide

/-- Every Object.prototype property name reads back truthy from both
network tables, so requests naming one of them never take the
"Invalid network" branch. -/
theorem protoKeys_truthy (cfg : Config) (n : String)
    (hn : objectProtoKeys.contains n = true) :
    truthy (RPC cfg n) = true ∧ truthy (FAUCET_CONTRACTS n) = true := by
  simp only [objectProtoKeys, List.contains_cons, List.contains_nil,
    Bool.or_eq_true, beq_iff_eq] at hn
  rcases hn with rfl | rfl | rfl | rfl | rfl | rfl | rfl | rfl | rfl | rfl | rfl | rfl | h
  all_goals first
  | exact ⟨rfl, rfl⟩
  | simp at h

/-- The cooldown read either reports 0 remaining, leaving the pending file
of the same pair untouched, or reports a positive remainder. -/
theorem getIpCooldown_zero_or_pos (now : Nat) (ip network : String) (s : Store) :
    (∃ s1, getIpCooldown now ip network s = (0, s1) ∧
      storeRead s1 (pendingPathFor ip network) = storeRead s (pendingPathFor ip network)) ∨
    (∃ r s1, getIpCooldown now ip network s = (r, s1) ∧ 0 < r) := by
  have hne : pendingPathFor ip network ≠ lockPathFor ip network :=
    (lockPathFor_ne_pendingPathFor ip network).symm
  rcases hread : storeRead s (lockPathFor ip network) with _ | _ | _ | _ | ⟨t, e, m⟩
  · exact Or.inl ⟨s, by simp [getIpCooldown, hread], rfl⟩
  · exact Or.inl ⟨s, by simp [getIpCooldown, hread], rfl⟩
  · exact Or.inl ⟨s, by simp [getIpCooldown, hread], rfl⟩
  · exact Or.inl ⟨storeErase s (lockPathFor ip network), by simp [getIpCooldown, hread],
      storeRead_storeErase_ne s _ _ hne⟩
  · by_cases hgt : e > now
    · exact Or.inr ⟨e - now, s, by simp [getIpCooldown, hread, hgt], by omega⟩
    · exact Or.inl ⟨storeErase s (lockPathFor ip network),
        by simp [getIpCooldown, hread, hgt],
        storeRead_storeErase_ne s _ _ hne⟩

/-! ## Claims -/

/-- C7: a claim request whose body contains no captchaToken gets the
"Invalid captcha" 400 failure, the lock directory is untouched and the
trace is empty: no lock-store read or write and no chain adapter call
(the handler returns before even the captcha verification call). -/
theorem c7_missing_captcha_short_circuit (cfg : Config) (chain : ChainEnv)
    (upstream : CaptchaUpstream) (now : Nat) (req : Req) (s0 : Store)
    (h : req.captchaToken = none) :
    claimHandler cfg chain upstream now req s0 = ⟨respFail 400 "Invalid captcha", s0, []⟩ := by
  rw [claimHandler, if_pos (Or.inl h)]

theorem c7_missing_captcha_short_circuit_witness :
    (Req.mk "amoy" goodAddr none "9.9.9.9").captchaToken = none ∧
    claimHandler sampleCfg chainAllOk captchaYes 5 (Req.mk "amoy" goodAddr none "9.9.9.9") [] =
      ⟨respFail 400 "Invalid captcha", [], []⟩ :=
  ⟨rfl, c7_missing_captcha_short_circuit sampleCfg chainAllOk captchaYes 5 _ [] rfl⟩

/-- C8 counterexample: with a configured secret, a missing token and an
upstream verdict that reports success, verifyHCaptcha returns true — the
code forwards the missing token as the empty string instead of failing
closed on it, so the claim's "returns false whenever the token is
missing" is false as stated. -/
theorem c8_missing_token_cex :
    verifyHCaptcha "hcaptcha-secret" none (.ok ⟨true⟩) = true := rfl

/-- C8 amended: verifyHCaptcha is a total boolean function (the JavaScript
body wraps its upstream interaction in try/catch, so it never throws); it
returns false when the verifier secret is unconfigured (empty), when the
upstream request fails or its body is unparseable, and when the upstream
response does not report success. A missing token is not checked locally:
it is forwarded to the upstream service as an empty response string, and
the verdict is whatever the upstream reports. -/
theorem c8_verify_fail_closed (secret : String) (token : Option String)
    (upstream : CaptchaUpstream) :
    (secret = "" → verifyHCaptcha secret token upstream = false) ∧
    (∀ msg, upstream = .error msg → verifyHCaptcha secret token upstream = false) ∧
    (∀ d, upstream = .ok d → d.success = false → verifyHCaptcha secret token upstream = false) ∧
    (verifyHCaptcha secret token upstream = true →
      secret ≠ "" ∧ upstream = .ok ⟨true⟩) := by
  refine ⟨fun h => by simp [verifyHCaptcha, h],
    fun msg h => by simp [verifyHCaptcha, h],
    fun d h hs => by simp [verifyHCaptcha, h, hs], fun h => ?_⟩
  by_cases hs : secret = ""
  · simp [verifyHCaptcha, hs] at h
  · refine ⟨hs, ?_⟩
    match hv : upstream with
    | .error msg => simp [verifyHCaptcha, hs, hv] at h
    | .ok d =>
      have hd : d.success = true := by simpa [verifyHCaptcha, hs, hv] using h
      cases d
      simp_all

theorem c8_verify_fail_closed_witness :
    verifyHCaptcha "" (some "tok") captchaYes = false ∧
    verifyHCaptcha "sec" (some "tok") (.error "ECONNRESET") = false ∧
    verifyHCaptcha "sec" (some "tok") (.ok ⟨false⟩) = false :=
  ⟨(c8_verify_fail_closed "" (some "tok") captchaYes).1 rfl,
   (c8_verify_fail_closed "sec" (some "tok") (.error "ECONNRESET")).2.1 "ECONNRESET" rfl,
   (c8_verify_fail_closed "sec" (some "tok") (.ok ⟨false⟩)).2.2.1 ⟨false⟩ rfl rfl⟩

/-- C9: a stored lock record (cooldown or pending) that is expired at read
time — now at or past expiresAt — reads as 0 remaining milliseconds and
the backing file is deleted (the store after the read no longer holds it);
a record with expiresAt strictly in the future reads as expiresAt - now
and the store is untouched. -/
theorem c9_lazy_expiry (now : Nat) (ip network : String) (s : Store)
    (t e : Nat) (meta : List (String × String)) :
    (storeRead s (lockPathFor ip network) = .record t e meta →
      (e ≤ now →
        getIpCooldown now ip network s = (0, storeErase s (lockPathFor ip network)) ∧
        storeRead (getIpCooldown now ip network s).2 (lockPathFor ip network) = .absent) ∧
      (now < e → getIpCooldown now ip network s = (e - now, s))) ∧
    (storeRead s (pendingPathFor ip network) = .record t e meta →
      (e ≤ now →
        getIpPending now ip network s = (0, storeErase s (pendingPathFor ip network)) ∧
        storeRead (getIpPending now ip network s).2 (pendingPathFor ip network) = .absent) ∧
      (now < e → getIpPending now ip network s = (e - now, s))) := by
  constructor
  · intro hrec
    constructor
    · intro hle
      have hget : getIpCooldown now ip network s = (0, storeErase s (lockPathFor ip network)) := by
        simp [getIpCooldown, hrec, if_neg (by omega : ¬ e > now)]
      exact ⟨hget, by rw [hget]; exact storeRead_storeErase_self s _⟩
    · intro hlt
      simp [getIpCooldown, hrec, if_pos (by omega : e > now)]
  · intro hrec
    constructor
    · intro hle
      have hget : getIpPending now ip network s = (0, storeErase s (pendingPathFor ip network)) := by
        simp [getIpPending, hrec, if_neg (by omega : ¬ e > now)]
      exact ⟨hget, by rw [hget]; exact storeRead_storeErase_self s _⟩
    · intro hlt
      simp [getIpPending, hrec, if_pos (by omega : e > now)]

theorem c9_lazy_expiry_witness :
    getIpCooldown 10 "1.2.3.4" "amoy"
        [(lockPathFor "1.2.3.4" "amoy", LockFile.record 0 5 [])] =
      (0, storeErase [(lockPathFor "1.2.3.4" "amoy", LockFile.record 0 5 [])]
        (lockPathFor "1.2.3.4" "amoy")) ∧
    storeRead (getIpCooldown 10 "1.2.3.4" "amoy"
        [(lockPathFor "1.2.3.4" "amoy", LockFile.record 0 5 [])]).2
      (lockPathFor "1.2.3.4" "amoy") = .absent :=
  ((c9_lazy_expiry 10 "1.2.3.4" "amoy"
      [(lockPathFor "1.2.3.4" "amoy", LockFile.record 0 5 [])] 0 5 []).1
    (by simp [storeRead, List.lookup])).1 (by omega)

/-- C10: a lock record that is unreadable, unparseable as JSON, or parsed
without a numeric expiresAt field reads as 0 remaining through both
getIpCooldown and getIpPending — the lock is treated as absent, so a
corrupt record never blocks a claim. The embedded read functions are
total Lean functions because the JavaScript bodies wrap every filesystem
step in try/catch: there is no throwing path to model. -/
theorem c10_corrupt_record_reads_zero (now : Nat) (ip network : String) (s : Store)
    (f : LockFile) (hf : f = .unreadable ∨ f = .badJson ∨ f = .badExpiry) :
    (storeRead s (lockPathFor ip network) = f → (getIpCooldown now ip network s).1 = 0) ∧
    (storeRead s (pendingPathFor ip network) = f → (getIpPending now ip network s).1 = 0) := by
  rcases hf with h | h | h <;> subst h <;>
    exact ⟨fun hr => by simp [getIpCooldown, hr], fun hr => by simp [getIpPending, hr]⟩

theorem c10_corrupt_record_reads_zero_witness :
    (getIpCooldown 7 "1.2.3.4" "amoy"
      [(lockPathFor "1.2.3.4" "amoy", LockFile.badJson)]).1 = 0 :=
  (c10_corrupt_record_reads_zero 7 "1.2.3.4" "amoy"
      [(lockPathFor "1.2.3.4" "amoy", LockFile.badJson)] .badJson
      (Or.inr (Or.inl rfl))).1 (by simp [storeRead, List.lookup])

/-- C6: a claim request made while the cooldown lock for the client and
network has R > 0 milliseconds left (its expiresAt is now + R) is answered
429 with error "Wait before next claim" and wait = ceil(R/1000) seconds
— (R + 999) / 1000 in integer arithmetic — and the run stops at the
cooldown read: no contract read and no dispatch appears in the trace. -/
theorem c6_cooldown_lock_429 (cfg : Config) (chain : ChainEnv)
    (upstream : CaptchaUpstream) (now : Nat) (req : Req) (s0 : Store)
    (t R : Nat) (meta : List (String × String))
    (h1 : req.captchaToken ≠ none) (h2 : req.captchaToken ≠ some "")
    (hcap : verifyHCaptcha cfg.hcaptchaSecret req.captchaToken upstream = true)
    (hrec : storeRead s0 (lockPathFor req.clientIp req.network) = .record t (now + R) meta)
    (hR : 0 < R) :
    claimHandler cfg chain upstream now req s0 =
      ⟨respWait 429 ((R + 999) / 1000), s0, [.captchaCall, .cooldownRead]⟩ ∧
    Ev.chainClaimAmount ∉ (claimHandler cfg chain upstream now req s0).trace ∧
    Ev.chainDispatch ∉ (claimHandler cfg chain upstream now req s0).trace ∧
    Ev.chainLastClaim ∉ (claimHandler cfg chain upstream now req s0).trace ∧
    Ev.chainCooldown ∉ (claimHandler cfg chain upstream now req s0).trace := by
  have hgt : now + R > now := by omega
  have hget : getIpCooldown now req.clientIp req.network s0 = (R, s0) := by
    simp [getIpCooldown, hrec, hgt]
  have hrun : claimHandler cfg chain upstream now req s0 =
      ⟨respWait 429 ((R + 999) / 1000), s0, [.captchaCall, .cooldownRead]⟩ := by
    rw [claimHandler, if_neg (by simp [h1, h2]), if_neg (by simp [hcap]), hget,
      if_pos (by omega : (R, s0).1 > 0)]
  refine ⟨hrun, ?_, ?_, ?_, ?_⟩ <;> rw [hrun] <;> simp

theorem c6_cooldown_lock_429_witness :
    claimHandler sampleCfg chainAllOk captchaYes 1000000
        (Req.mk "amoy" goodAddr (some "tok") "1.2.3.4")
        [(lockPathFor "1.2.3.4" "amoy", LockFile.record 0 (1000000 + 2500) [])] =
      ⟨respWait 429 ((2500 + 999) / 1000),
        [(lockPathFor "1.2.3.4" "amoy", LockFile.record 0 (1000000 + 2500) [])],
        [.captchaCall, .cooldownRead]⟩ :=
  (c6_cooldown_lock_429 sampleCfg chainAllOk captchaYes 1000000
      (Req.mk "amoy" goodAddr (some "tok") "1.2.3.4")
      [(lockPathFor "1.2.3.4" "amoy", LockFile.record 0 (1000000 + 2500) [])]
      0 2500 [] (by simp) (by simp) rfl (by simp [storeRead, List.lookup]) (by omega)).1

/-- C4: when the handler reaches dispatch (token present, captcha passing,
no active local locks, supported network, valid recipient, successful
claimAmount read) and the dispatch throws a CALL_EXCEPTION whose reason is
"Wait before next claim", and the follow-up lastClaim and cooldown reads
return L and C, the response is HTTP 400 with error "Wait before next
claim" and wait = max(0, L + C - floor(now/1000)) whole seconds, and the
pending lock for the client and network is cleared before responding. -/
theorem c4_chain_rejection_wait (cfg : Config) (chain : ChainEnv)
    (upstream : CaptchaUpstream) (now : Nat) (req : Req) (s0 : Store)
    (h1 : req.captchaToken ≠ none) (h2 : req.captchaToken ≠ some "")
    (hcap : verifyHCaptcha cfg.hcaptchaSecret req.captchaToken upstream = true)
    (hcd : storeRead s0 (lockPathFor req.clientIp req.network) = .absent)
    (hpd : storeRead s0 (pendingPathFor req.clientIp req.network) = .absent)
    (hrpc : truthy (RPC cfg req.network) = true)
    (hct : truthy (FAUCET_CONTRACTS req.network) = true)
    (haddr : ethersIsAddress req.recipient = true)
    (a : Nat) (hamt : chain.claimAmountRes = .ok a)
    (e : JsError) (hdisp : chain.dispatchRes = .err e)
    (hcode : e.code = some "CALL_EXCEPTION")
    (hreason : e.reason = some "Wait before next claim")
    (L C : Nat) (hlast : chain.lastClaimRes = .ok L) (hcool : chain.cooldownRes = .ok C) :
    (claimHandler cfg chain upstream now req s0).resp =
      respWait 400 (max 0 ((L : Int) + (C : Int) - ((now / 1000 : Nat) : Int))) ∧
    storeRead (claimHandler cfg chain upstream now req s0).store
      (pendingPathFor req.clientIp req.network) = .absent := by
  rw [claimHandler_pastLocks cfg chain upstream now req s0 h1 h2 hcap hcd hpd]
  simp [afterLocks, hrpc, hct, haddr, hamt, hdisp, hcode, hreason, hlast, hcool,
    clearIpPending, storeRead_storeErase_self]
  exact congrArg (respWait 400) (by split <;> omega)

theorem c4_chain_rejection_wait_witness :
    (claimHandler sampleCfg chainRejects captchaYes 1000000
        (Req.mk "amoy" goodAddr (some "tok") "1.2.3.4") []).resp =
      respWait 400 (max 0 ((950 : Int) + (86400 : Int) - ((1000000 / 1000 : Nat) : Int))) ∧
    storeRead (claimHandler sampleCfg chainRejects captchaYes 1000000
        (Req.mk "amoy" goodAddr (some "tok") "1.2.3.4") []).store
      (pendingPathFor "1.2.3.4" "amoy") = .absent :=
  c4_chain_rejection_wait sampleCfg chainRejects captchaYes 1000000
    (Req.mk "amoy" goodAddr (some "tok") "1.2.3.4") []
    (by simp) (by simp) rfl rfl rfl rfl rfl (by decide)
    100000000000000000 rfl
    ⟨some "CALL_EXCEPTION", some "Wait before next claim",
      "execution reverted: Wait before next claim"⟩ rfl rfl rfl
    950 86400 rfl rfl

/-- C5: when the handler reaches dispatch and the dispatch confirms with
hash h, the response is 200 {success: true, txHash: h}, the pending lock
for the client and network is absent afterwards, and the cooldown lock is
present with expiresAt equal to the write time plus COOLDOWN_MS (86400
seconds) and metadata carrying the recipient, the network, and the
transaction hash. -/
theorem c5_success_promotes_lock (cfg : Config) (chain : ChainEnv)
    (upstream : CaptchaUpstream) (now : Nat) (req : Req) (s0 : Store)
    (h1 : req.captchaToken ≠ none) (h2 : req.captchaToken ≠ some "")
    (hcap : verifyHCaptcha cfg.hcaptchaSecret req.captchaToken upstream = true)
    (hcd : storeRead s0 (lockPathFor req.clientIp req.network) = .absent)
    (hpd : storeRead s0 (pendingPathFor req.clientIp req.network) = .absent)
    (hrpc : truthy (RPC cfg req.network) = true)
    (hct : truthy (FAUCET_CONTRACTS req.network) = true)
    (haddr : ethersIsAddress req.recipient = true)
    (a : Nat) (hamt : chain.claimAmountRes = .ok a)
    (h : String) (hdisp : chain.dispatchRes = .ok h) :
    (claimHandler cfg chain upstream now req s0).resp =
      { status := 200, success := true, error := none, wait := none, txHash := some h } ∧
    storeRead (claimHandler cfg chain upstream now req s0).store
      (pendingPathFor req.clientIp req.network) = .absent ∧
    storeRead (claimHandler cfg chain upstream now req s0).store
      (lockPathFor req.clientIp req.network) =
      .record now (now + COOLDOWN_MS)
        [("lastAddress", req.recipient), ("lastNetwork", req.network), ("txHash", h)] ∧
    COOLDOWN_MS = 86400 * 1000 := by
  have hrun : claimHandler cfg chain upstream now req s0 =
      ⟨{ status := 200, success := true, error := none, wait := none, txHash := some h },
        clearIpPending req.clientIp req.network
          (setIpCooldown now req.clientIp req.network
            [("lastAddress", req.recipient), ("lastNetwork", req.network), ("txHash", h)]
            (setIpPending now req.clientIp req.network
              [("recipient", req.recipient), ("network", req.network)] s0)),
        [.captchaCall, .cooldownRead, .pendingRead, .pendingWrite,
         .chainClaimAmount, .chainDispatch, .cooldownWrite, .pendingClear]⟩ := by
    rw [claimHandler_pastLocks cfg chain upstream now req s0 h1 h2 hcap hcd hpd]
    simp [afterLocks, hrpc, hct, haddr, hamt, hdisp]
  rw [hrun]
  refine ⟨rfl, storeRead_storeErase_self _ _, ?_, rfl⟩
  rw [clearIpPending, storeRead_storeErase_ne _ _ _ (lockPathFor_ne_pendingPathFor _ _),
    setIpCooldown, storeRead_storeWrite_self]

theorem c5_success_promotes_lock_witness :
    (claimHandler sampleCfg chainAllOk captchaYes 1000000
        (Req.mk "sepolia" goodAddr (some "tok") "1.2.3.4") []).resp =
      { status := 200, success := true, error := none, wait := none,
        txHash := some "0xdeadbeef" } ∧
    storeRead (claimHandler sampleCfg chainAllOk captchaYes 1000000
        (Req.mk "sepolia" goodAddr (some "tok") "1.2.3.4") []).store
      (pendingPathFor "1.2.3.4" "sepolia") = .absent ∧
    storeRead (claimHandler sampleCfg chainAllOk captchaYes 1000000
        (Req.mk "sepolia" goodAddr (some "tok") "1.2.3.4") []).store
      (lockPathFor "1.2.3.4" "sepolia") =
      .record 1000000 (1000000 + COOLDOWN_MS)
        [("lastAddress", goodAddr), ("lastNetwork", "sepolia"), ("txHash", "0xdeadbeef")] ∧
    COOLDOWN_MS = 86400 * 1000 :=
  c5_success_promotes_lock sampleCfg chainAllOk captchaYes 1000000
    (Req.mk "sepolia" goodAddr (some "tok") "1.2.3.4") []
    (by simp) (by simp) rfl rfl rfl rfl rfl (by decide)
    100000000000000000 rfl "0xdeadbeef" rfl

/-- C1 counterexample: a request with a valid captcha, no prior locks, a
supported network and the malformed recipient "not-an-address" — the
spec's own scenario — answers 400 "Invalid recipient address" while the
pending lock written earlier in the run is still present afterwards: the
handler does not clear it on this non-success path. -/
theorem c1_invalid_recipient_keeps_pending_cex :
    (claimHandler sampleCfg chainAllOk captchaYes 1000000
        (Req.mk "amoy" "not-an-address" (some "tok") "1.2.3.4") []).resp =
      respFail 400 "Invalid recipient address" ∧
    storeRead (claimHandler sampleCfg chainAllOk captchaYes 1000000
        (Req.mk "amoy" "not-an-address" (some "tok") "1.2.3.4") []).store
      (pendingPathFor "1.2.3.4" "amoy") =
      .record 1000000 (1000000 + PENDING_MS)
        [("recipient", "not-an-address"), ("network", "amoy")] := by
  have hrun : claimHandler sampleCfg chainAllOk captchaYes 1000000
      (Req.mk "amoy" "not-an-address" (some "tok") "1.2.3.4") [] =
      ⟨respFail 400 "Invalid recipient address",
        setIpPending 1000000 "1.2.3.4" "amoy"
          [("recipient", "not-an-address"), ("network", "amoy")] [],
        [.captchaCall, .cooldownRead, .pendingRead, .pendingWrite]⟩ := by
    rw [claimHandler_pastLocks sampleCfg chainAllOk captchaYes 1000000
        (Req.mk "amoy" "not-an-address" (some "tok") "1.2.3.4") []
        (by simp) (by simp) rfl rfl rfl]
    have hr : truthy (RPC sampleCfg "amoy") = true := by decide
    have hc : truthy (FAUCET_CONTRACTS "amoy") = true := by decide
    have ha : ethersIsAddress "not-an-address" = false := by decide
    simp [afterLocks, hr, hc, ha]
  rw [hrun]
  exact ⟨rfl, by rw [setIpPending, storeRead_storeWrite_self]⟩

/-- C1 amended: once the pending lock has been written (token present,
captcha passing, no active locks for the client/network pair), the
handler clears it on the success path (where the cooldown lock replaces
it) and on both dispatch-failure paths — the recognized chain rejection
with both follow-up reads succeeding, and any other thrown dispatch
error; it does NOT clear it on the invalid-network path, the
invalid-recipient path, a failing claimAmount read, or a failing
lastClaim/cooldown follow-up read: on those paths the fresh pending
record, expiring PENDING_MS after the write, is left in the store. The
path conditions are the program's own tests: the truthiness of the JS
property reads on the network tables (inherited Object.prototype names
read back truthy and do not take the invalid-network branch) and
ethers.isAddress with its EIP-55 and ICAP branches (a correctly
checksummed mixed-case recipient is valid and proceeds to dispatch). -/
theorem c1_pending_lock_lifecycle (cfg : Config) (chain : ChainEnv)
    (upstream : CaptchaUpstream) (now : Nat) (req : Req) (s0 : Store)
    (h1 : req.captchaToken ≠ none) (h2 : req.captchaToken ≠ some "")
    (hcap : verifyHCaptcha cfg.hcaptchaSecret req.captchaToken upstream = true)
    (hcd : storeRead s0 (lockPathFor req.clientIp req.network) = .absent)
    (hpd : storeRead s0 (pendingPathFor req.clientIp req.network) = .absent) :
    ((truthy (RPC cfg req.network) = false ∨ truthy (FAUCET_CONTRACTS req.network) = false) →
      (claimHandler cfg chain upstream now req s0).resp = respFail 400 "Invalid network" ∧
      storeRead (claimHandler cfg chain upstream now req s0).store
          (pendingPathFor req.clientIp req.network) =
        .record now (now + PENDING_MS)
          [("recipient", req.recipient), ("network", req.network)]) ∧
    (truthy (RPC cfg req.network) = true → truthy (FAUCET_CONTRACTS req.network) = true →
      ethersIsAddress req.recipient = false →
      (claimHandler cfg chain upstream now req s0).resp =
        respFail 400 "Invalid recipient address" ∧
      storeRead (claimHandler cfg chain upstream now req s0).store
          (pendingPathFor req.clientIp req.network) =
        .record now (now + PENDING_MS)
          [("recipient", req.recipient), ("network", req.network)]) ∧
    (truthy (RPC cfg req.network) = true → truthy (FAUCET_CONTRACTS req.network) = true →
      ethersIsAddress req.recipient = true →
      ∀ e, chain.claimAmountRes = .error e →
      (claimHandler cfg chain upstream now req s0).resp = respFail 500 e.message ∧
      storeRead (claimHandler cfg chain upstream now req s0).store
          (pendingPathFor req.clientIp req.network) =
        .record now (now + PENDING_MS)
          [("recipient", req.recipient), ("network", req.network)]) ∧
    (truthy (RPC cfg req.network) = true → truthy (FAUCET_CONTRACTS req.network) = true →
      ethersIsAddress req.recipient = true →
      ∀ a, chain.claimAmountRes = .ok a → ∀ h, chain.dispatchRes = .ok h →
      storeRead (claimHandler cfg chain upstream now req s0).store
        (pendingPathFor req.clientIp req.network) = .absent) ∧
    (truthy (RPC cfg req.network) = true → truthy (FAUCET_CONTRACTS req.network) = true →
      ethersIsAddress req.recipient = true →
      ∀ a, chain.claimAmountRes = .ok a → ∀ e, chain.dispatchRes = .err e →
      e.code = some "CALL_EXCEPTION" → e.reason = some "Wait before next claim" →
      ∀ e2, chain.lastClaimRes = .error e2 →
      (claimHandler cfg chain upstream now req s0).resp = respFail 500 e2.message ∧
      storeRead (claimHandler cfg chain upstream now req s0).store
          (pendingPathFor req.clientIp req.network) =
        .record now (now + PENDING_MS)
          [("recipient", req.recipient), ("network", req.network)]) ∧
    (truthy (RPC cfg req.network) = true → truthy (FAUCET_CONTRACTS req.network) = true →
      ethersIsAddress req.recipient = true →
      ∀ a, chain.claimAmountRes = .ok a → ∀ e, chain.dispatchRes = .err e →
      e.code = some "CALL_EXCEPTION" → e.reason = some "Wait before next claim" →
      ∀ L, chain.lastClaimRes = .ok L → ∀ e3, chain.cooldownRes = .error e3 →
      (claimHandler cfg chain upstream now req s0).resp = respFail 500 e3.message ∧
      storeRead (claimHandler cfg chain upstream now req s0).store
          (pendingPathFor req.clientIp req.network) =
        .record now (now + PENDING_MS)
          [("recipient", req.recipient), ("network", req.network)]) ∧
    (truthy (RPC cfg req.network) = true → truthy (FAUCET_CONTRACTS req.network) = true →
      ethersIsAddress req.recipient = true →
      ∀ a, chain.claimAmountRes = .ok a → ∀ e, chain.dispatchRes = .err e →
      e.code = some "CALL_EXCEPTION" → e.reason = some "Wait before next claim" →
      ∀ L, chain.lastClaimRes = .ok L → ∀ C, chain.cooldownRes = .ok C →
      storeRead (claimHandler cfg chain upstream now req s0).store
        (pendingPathFor req.clientIp req.network) = .absent) ∧
    (truthy (RPC cfg req.network) = true → truthy (FAUCET_CONTRACTS req.network) = true →
      ethersIsAddress req.recipient = true →
      ∀ a, chain.claimAmountRes = .ok a → ∀ e, chain.dispatchRes = .err e →
      ¬(e.code = some "CALL_EXCEPTION" ∧ e.reason = some "Wait before next claim") →
      (claimHandler cfg chain upstream now req s0).resp = respFail 500 e.message ∧
      storeRead (claimHandler cfg chain upstream now req s0).store
        (pendingPathFor req.clientIp req.network) = .absent) := by
  have hpast := claimHandler_pastLocks cfg chain upstream now req s0 h1 h2 hcap hcd hpd
  refine ⟨?_, ?_, ?_, ?_, ?_, ?_, ?_, ?_⟩
  · rintro (hn | hn) <;> rw [hpast] <;>
      simp [afterLocks, hn, setIpPending, storeRead_storeWrite_self]
  · intro hr hc ha
    rw [hpast]
    simp [afterLocks, hr, hc, ha, setIpPending, storeRead_storeWrite_self]
  · intro hr hc ha e hamt
    rw [hpast]
    simp [afterLocks, hr, hc, ha, hamt, setIpPending, storeRead_storeWrite_self]
  · intro hr hc ha a hamt h hdisp
    rw [hpast]
    simp [afterLocks, hr, hc, ha, hamt, hdisp, clearIpPending, storeRead_storeErase_self]
  · intro hr hc ha a hamt e hdisp hcode hreason e2 hlast
    rw [hpast]
    simp [afterLocks, hr, hc, ha, hamt, hdisp, hcode, hreason, hlast,
      setIpPending, storeRead_storeWrite_self]
  · intro hr hc ha a hamt e hdisp hcode hreason L hlast e3 hcool
    rw [hpast]
    simp [afterLocks, hr, hc, ha, hamt, hdisp, hcode, hreason, hlast, hcool,
      setIpPending, storeRead_storeWrite_self]
  · intro hr hc ha a hamt e hdisp hcode hreason L hlast C hcool
    rw [hpast]
    simp [afterLocks, hr, hc, ha, hamt, hdisp, hcode, hreason, hlast, hcool,
      clearIpPending, storeRead_storeErase_self]
  · intro hr hc ha a hamt e hdisp hne
    rw [hpast]
    simp [afterLocks, hr, hc, ha, hamt, hdisp, hne,
      clearIpPending, storeRead_storeErase_self]

theorem c1_pending_lock_lifecycle_witness :
    storeRead (claimHandler sampleCfg chainRejects captchaYes 1000000
        (Req.mk "amoy" goodAddr (some "tok") "1.2.3.4") []).store
      (pendingPathFor "1.2.3.4" "amoy") = .absent :=
  (c1_pending_lock_lifecycle sampleCfg chainRejects captchaYes 1000000
      (Req.mk "amoy" goodAddr (some "tok") "1.2.3.4") []
      (by simp) (by simp) rfl rfl rfl).2.2.2.2.2.2.1
    rfl rfl (by decide) 100000000000000000 rfl
    ⟨some "CALL_EXCEPTION", some "Wait before next claim",
      "execution reverted: Wait before next claim"⟩ rfl rfl rfl 950 rfl 86400 rfl

/-- C2 counterexample: a request for the unsupported network "unknown"
(valid captcha, no prior locks) is answered 400 "Invalid network", but
only after the handler has read the cooldown lock, read the pending lock
and written a pending lock — the pending record for (client, "unknown")
is in the store when the response goes out, contradicting the claim's "no
lock-store interaction before responding". -/
theorem c2_lock_writes_before_network_check_cex :
    (claimHandler sampleCfg chainAllOk captchaYes 1000000
        (Req.mk "unknown" goodAddr (some "tok") "1.2.3.4") []).resp =
      respFail 400 "Invalid network" ∧
    Ev.cooldownRead ∈ (claimHandler sampleCfg chainAllOk captchaYes 1000000
        (Req.mk "unknown" goodAddr (some "tok") "1.2.3.4") []).trace ∧
    Ev.pendingRead ∈ (claimHandler sampleCfg chainAllOk captchaYes 1000000
        (Req.mk "unknown" goodAddr (some "tok") "1.2.3.4") []).trace ∧
    Ev.pendingWrite ∈ (claimHandler sampleCfg chainAllOk captchaYes 1000000
        (Req.mk "unknown" goodAddr (some "tok") "1.2.3.4") []).trace ∧
    storeRead (claimHandler sampleCfg chainAllOk captchaYes 1000000
        (Req.mk "unknown" goodAddr (some "tok") "1.2.3.4") []).store
      (pendingPathFor "1.2.3.4" "unknown") =
      .record 1000000 (1000000 + PENDING_MS)
        [("recipient", goodAddr), ("network", "unknown")] := by
  have hrun : claimHandler sampleCfg chainAllOk captchaYes 1000000
      (Req.mk "unknown" goodAddr (some "tok") "1.2.3.4") [] =
      ⟨respFail 400 "Invalid network",
        setIpPending 1000000 "1.2.3.4" "unknown"
          [("recipient", goodAddr), ("network", "unknown")] [],
        [.captchaCall, .cooldownRead, .pendingRead, .pendingWrite]⟩ := by
    rw [claimHandler_pastLocks sampleCfg chainAllOk captchaYes 1000000
        (Req.mk "unknown" goodAddr (some "tok") "1.2.3.4") []
        (by simp) (by simp) rfl rfl rfl]
    have hn : truthy (RPC sampleCfg "unknown") = false := by decide
    simp [afterLocks, hn]
  exact ⟨by rw [hrun], by rw [hrun]; simp, by rw [hrun]; simp, by rw [hrun]; simp,
    by rw [hrun]; rw [setIpPending, storeRead_storeWrite_self]⟩

/-- C2 amended: a request whose network looks up falsy in both tables — it
is not one of the four configured keys and not an Object.prototype
property name, or its configured RPC variable is unset or empty — is
answered 400 "Invalid network" with no chain call; but only when the
captcha gate passes and no lock for the pair is active, and only after
the handler has read the cooldown lock, read the pending lock and written
a fresh pending lock for (client, network), which the response leaves
behind to expire on its own. Networks naming an Object.prototype member
(such as "constructor") read back truthy and skip this branch entirely:
the last conjunct records that neither table is falsy there, so the
program continues to the recipient check and the chain steps instead. -/
theorem c2_invalid_network_after_lock_steps (cfg : Config) (chain : ChainEnv)
    (upstream : CaptchaUpstream) (now : Nat) (req : Req) (s0 : Store)
    (h1 : req.captchaToken ≠ none) (h2 : req.captchaToken ≠ some "")
    (hcap : verifyHCaptcha cfg.hcaptchaSecret req.captchaToken upstream = true)
    (hcd : storeRead s0 (lockPathFor req.clientIp req.network) = .absent)
    (hpd : storeRead s0 (pendingPathFor req.clientIp req.network) = .absent)
    (hnet : truthy (RPC cfg req.network) = false ∨
      truthy (FAUCET_CONTRACTS req.network) = false) :
    claimHandler cfg chain upstream now req s0 =
      ⟨respFail 400 "Invalid network",
        setIpPending now req.clientIp req.network
          [("recipient", req.recipient), ("network", req.network)] s0,
        [.captchaCall, .cooldownRead, .pendingRead, .pendingWrite]⟩ ∧
    Ev.chainClaimAmount ∉ (claimHandler cfg chain upstream now req s0).trace ∧
    Ev.chainDispatch ∉ (claimHandler cfg chain upstream now req s0).trace ∧
    Ev.chainLastClaim ∉ (claimHandler cfg chain upstream now req s0).trace ∧
    Ev.chainCooldown ∉ (claimHandler cfg chain upstream now req s0).trace ∧
    storeRead (claimHandler cfg chain upstream now req s0).store
      (pendingPathFor req.clientIp req.network) =
      .record now (now + PENDING_MS)
        [("recipient", req.recipient), ("network", req.network)] ∧
    (∀ n, objectProtoKeys.contains n = true →
      truthy (RPC cfg n) = true ∧ truthy (FAUCET_CONTRACTS n) = true) := by
  have hrun : claimHandler cfg chain upstream now req s0 =
      ⟨respFail 400 "Invalid network",
        setIpPending now req.clientIp req.network
          [("recipient", req.recipient), ("network", req.network)] s0,
        [.captchaCall, .cooldownRead, .pendingRead, .pendingWrite]⟩ := by
    rw [claimHandler_pastLocks cfg chain upstream now req s0 h1 h2 hcap hcd hpd]
    rcases hnet with hn | hn <;> simp [afterLocks, hn]
  refine ⟨hrun, ?_, ?_, ?_, ?_, ?_, fun n hn => protoKeys_truthy cfg n hn⟩ <;> rw [hrun]
  · simp
  · simp
  · simp
  · simp
  · rw [setIpPending, storeRead_storeWrite_self]

theorem c2_invalid_network_after_lock_steps_witness :
    claimHandler sampleCfg chainAllOk captchaYes 42
        (Req.mk "base2" goodAddr (some "tok") "8.8.8.8") [] =
      ⟨respFail 400 "Invalid network",
        setIpPending 42 "8.8.8.8" "base2" [("recipient", goodAddr), ("network", "base2")] [],
        [.captchaCall, .cooldownRead, .pendingRead, .pendingWrite]⟩ :=
  (c2_invalid_network_after_lock_steps sampleCfg chainAllOk captchaYes 42
      (Req.mk "base2" goodAddr (some "tok") "8.8.8.8") []
      (by simp) (by simp) rfl rfl rfl (Or.inl rfl)).1

/-- C3 counterexample: the client 1.2.3.4 holds a non-expired pending lock
for network amoy (written one second ago, 59 s of its 60 s TTL left), and
within the minute sends a second claim — to the different supported
network sepolia. The request is not rejected: it dispatches (chainDispatch
is in the trace) and succeeds with 200, because the lock key is the hash
of client AND network, so a lock on one network does not cover another.
The claim's "same or different supported network" is false as stated. -/
theorem c3_different_network_not_blocked_cex :
    storeRead c3Store (pendingPathFor "1.2.3.4" "amoy") =
      .record 999000 (999000 + PENDING_MS) [("recipient", goodAddr), ("network", "amoy")] ∧
    1000000 < 999000 + PENDING_MS ∧
    (claimHandler sampleCfg chainAllOk captchaYes 1000000
        (Req.mk "sepolia" goodAddr (some "tok") "1.2.3.4") c3Store).resp.success = true ∧
    (claimHandler sampleCfg chainAllOk captchaYes 1000000
        (Req.mk "sepolia" goodAddr (some "tok") "1.2.3.4") c3Store).resp.status = 200 ∧
    Ev.chainDispatch ∈ (claimHandler sampleCfg chainAllOk captchaYes 1000000
        (Req.mk "sepolia" goodAddr (some "tok") "1.2.3.4") c3Store).trace := by
  have hpne : pendingPathFor "1.2.3.4" "sepolia" ≠ pendingPathFor "1.2.3.4" "amoy" :=
    pendingPathFor_ne_of_hashKey_ne "1.2.3.4" "sepolia" "1.2.3.4" "amoy"
      (Ne.symm hashKey_amoy_ne_sepolia)
  have hlne : lockPathFor "1.2.3.4" "sepolia" ≠ pendingPathFor "1.2.3.4" "amoy" :=
    lockPathFor_ne_pendingPathFor_pairs "1.2.3.4" "sepolia" "1.2.3.4" "amoy"
  have hcd : storeRead c3Store (lockPathFor "1.2.3.4" "sepolia") = .absent := by
    simp [c3Store, storeRead, List.lookup, beq_eq_false_iff_ne.mpr hlne]
  have hpd : storeRead c3Store (pendingPathFor "1.2.3.4" "sepolia") = .absent := by
    simp [c3Store, storeRead, List.lookup, beq_eq_false_iff_ne.mpr hpne]
  have hrun : claimHandler sampleCfg chainAllOk captchaYes 1000000
      (Req.mk "sepolia" goodAddr (some "tok") "1.2.3.4") c3Store =
      ⟨{ status := 200, success := true, error := none, wait := none,
          txHash := some "0xdeadbeef" },
        clearIpPending "1.2.3.4" "sepolia"
          (setIpCooldown 1000000 "1.2.3.4" "sepolia"
            [("lastAddress", goodAddr), ("lastNetwork", "sepolia"), ("txHash", "0xdeadbeef")]
            (setIpPending 1000000 "1.2.3.4" "sepolia"
              [("recipient", goodAddr), ("network", "sepolia")] c3Store)),
        [.captchaCall, .cooldownRead, .pendingRead, .pendingWrite,
         .chainClaimAmount, .chainDispatch, .cooldownWrite, .pendingClear]⟩ := by
    rw [claimHandler_pastLocks sampleCfg chainAllOk captchaYes 1000000
        (Req.mk "sepolia" goodAddr (some "tok") "1.2.3.4") c3Store
        (by simp) (by simp) rfl hcd hpd]
    have hr : truthy (RPC sampleCfg "sepolia") = true := by decide
    have hc : truthy (FAUCET_CONTRACTS "sepolia") = true := by decide
    have ha : ethersIsAddress goodAddr = true := by decide
    simp [afterLocks, hr, hc, ha, chainAllOk]
  exact ⟨by simp [c3Store, storeRead, List.lookup], by decide,
    by rw [hrun], by rw [hrun], by rw [hrun]; simp⟩

/-- C3 amended: a repeat claim from the same client to the SAME network
while a non-expired cooldown or pending lock for that (client, network)
pair exists — in particular within one minute of a previous request,
whose pending lock is still live — is rejected 429 "Wait before next
claim" by the lock check, with no dispatch call. A repeat to a different
network uses a different lock key and is not covered (see the
counterexample). -/
theorem c3_same_network_repeat_blocked (cfg : Config) (chain : ChainEnv)
    (upstream : CaptchaUpstream) (now : Nat) (req : Req) (s0 : Store)
    (h1 : req.captchaToken ≠ none) (h2 : req.captchaToken ≠ some "")
    (hcap : verifyHCaptcha cfg.hcaptchaSecret req.captchaToken upstream = true)
    (hlock : (∃ t e m, storeRead s0 (lockPathFor req.clientIp req.network) =
        .record t e m ∧ now < e) ∨
      (∃ t e m, storeRead s0 (pendingPathFor req.clientIp req.network) =
        .record t e m ∧ now < e)) :
    (claimHandler cfg chain upstream now req s0).resp.status = 429 ∧
    (claimHandler cfg chain upstream now req s0).resp.error =
      some "Wait before next claim" ∧
    (claimHandler cfg chain upstream now req s0).resp.success = false ∧
    Ev.chainDispatch ∉ (claimHandler cfg chain upstream now req s0).trace := by
  rcases getIpCooldown_zero_or_pos now req.clientIp req.network s0 with
    ⟨s1, hg, hpres⟩ | ⟨r, s1, hg, hr⟩
  · have hpend : ∃ t e m, storeRead s0 (pendingPathFor req.clientIp req.network) =
        .record t e m ∧ now < e := by
      rcases hlock with ⟨t, e, m, hrec, hlt⟩ | hp
      · exfalso
        simp only [getIpCooldown, hrec] at hg
        rw [if_pos (by omega : e > now)] at hg
        have h0 : e - now = 0 := congrArg Prod.fst hg
        omega
      · exact hp
    obtain ⟨t, e, m, hrec, hlt⟩ := hpend
    have hrec1 : storeRead s1 (pendingPathFor req.clientIp req.network) = .record t e m := by
      rw [hpres, hrec]
    have hget2 : getIpPending now req.clientIp req.network s1 = (e - now, s1) := by
      simp [getIpPending, hrec1, if_pos (by omega : e > now)]
    have hrun : claimHandler cfg chain upstream now req s0 =
        ⟨respWait 429 ((((e - now : Nat) : Int) + 999) / 1000), s1,
          [.captchaCall, .cooldownRead, .pendingRead]⟩ := by
      rw [claimHandler, if_neg (by simp [h1, h2]), if_neg (by simp [hcap]), hg,
        if_neg (by omega : ¬ ((0, s1).1 > 0)), hget2,
        if_pos (by simpa using Nat.sub_pos_of_lt hlt : ((e - now, s1).1 > 0))]
    exact ⟨by rw [hrun]; rfl, by rw [hrun]; rfl, by rw [hrun]; rfl, by rw [hrun]; simp⟩
  · have hrun : claimHandler cfg chain upstream now req s0 =
        ⟨respWait 429 (((r : Int) + 999) / 1000), s1, [.captchaCall, .cooldownRead]⟩ := by
      rw [claimHandler, if_neg (by simp [h1, h2]), if_neg (by simp [hcap]), hg,
        if_pos (by simpa using hr : ((r, s1).1 > 0))]
    exact ⟨by rw [hrun]; rfl, by rw [hrun]; rfl, by rw [hrun]; rfl, by rw [hrun]; simp⟩

theorem c3_same_network_repeat_blocked_witness :
    (claimHandler sampleCfg chainAllOk captchaYes 1000000
        (Req.mk "amoy" goodAddr (some "tok") "1.2.3.4") c3Store).resp.status = 429 ∧
    (claimHandler sampleCfg chainAllOk captchaYes 1000000
        (Req.mk "amoy" goodAddr (some "tok") "1.2.3.4") c3Store).resp.error =
      some "Wait before next claim" ∧
    (claimHandler sampleCfg chainAllOk captchaYes 1000000
        (Req.mk "amoy" goodAddr (some "tok") "1.2.3.4") c3Store).resp.success = false ∧
    Ev.chainDispatch ∉ (claimHandler sampleCfg chainAllOk captchaYes 1000000
        (Req.mk "amoy" goodAddr (some "tok") "1.2.3.4") c3Store).trace :=
  c3_same_network_repeat_blocked sampleCfg chainAllOk captchaYes 1000000
    (Req.mk "amoy" goodAddr (some "tok") "1.2.3.4") c3Store
    (by simp) (by simp) rfl
    (Or.inr ⟨999000, 999000 + PENDING_MS, [("recipient", goodAddr), ("network", "amoy")],
      by simp [c3Store, storeRead, List.lookup], by decide⟩)

end StrawHat
